import Mathlib

/-!
Shallow embedding of the ActivityToolbox activity model and TCX loader.

Conventions of the embedding:
* Python `datetime` values are modelled as integers (the code only
  constructs, compares and sorts them).
* Python `float` values are modelled as rationals (the code only compares
  them and takes min/max, so no rounding behaviour is observable).
* `Optional[T]` is `Option T`; pydantic validation errors are `Except.error`.
* Python's `sorted` is a stable sort and is modelled by `List.insertionSort`
  with the non-strict key comparison, which is stable.
-/

namespace ActivityToolbox

/-- A `datetime` timestamp, modelled as an integer number of seconds. -/
abbrev Timestamp := Int

/-- `models/trackpoint.py`, class `TrackPoint`: one time-series sample.
The free-form `extensions` dict carries no constraints and is touched by no
claim, so it is not part of the embedding. -/
structure TrackPoint where
  timestamp : Timestamp
  latitude : Option ℚ := none
  longitude : Option ℚ := none
  elevation : Option ℚ := none
  distance : Option ℚ := none
  speed : Option ℚ := none
  heart_rate : Option Int := none
  cadence : Option Int := none
  power : Option Int := none
  temperature : Option ℚ := none
  source_index : Option Int := none
deriving Repr, DecidableEq

/-- pydantic construction of a `TrackPoint`: the per-field range constraints
of `types.py` (`Latitude`, `Longitude`, `Meters`, `SpeedMS`, `BPM`, `RPM`,
`Watts`) are checked first, then the `_validate_gps_pair` model validator. -/
def mkTrackPoint (timestamp : Timestamp)
    (latitude longitude elevation distance speed : Option ℚ)
    (heart_rate cadence power : Option Int)
    (temperature : Option ℚ) (source_index : Option Int) :
    Except String TrackPoint :=
  if !(latitude.all fun x => decide (-90 ≤ x ∧ x ≤ 90)) then
    .error "latitude out of range"
  else if !(longitude.all fun x => decide (-180 ≤ x ∧ x ≤ 180)) then
    .error "longitude out of range"
  else if !(distance.all fun x => decide (0 ≤ x)) then
    .error "distance must be non-negative"
  else if !(speed.all fun x => decide (0 ≤ x)) then
    .error "speed must be non-negative"
  else if !(heart_rate.all fun x => decide (0 ≤ x)) then
    .error "heart_rate must be non-negative"
  else if !(cadence.all fun x => decide (0 ≤ x)) then
    .error "cadence must be non-negative"
  else if !(power.all fun x => decide (0 ≤ x)) then
    .error "power must be non-negative"
  else if latitude.isSome ^^ longitude.isSome then
    .error "latitude and longitude must be both set or both None"
  else
    .ok { timestamp := timestamp, latitude := latitude, longitude := longitude,
          elevation := elevation, distance := distance, speed := speed,
          heart_rate := heart_rate, cadence := cadence, power := power,
          temperature := temperature, source_index := source_index }

/-- `models/lap.py`, class `Lap`: a segment with summary stats.
`total_time` is a `timedelta`, modelled as a rational number of seconds. -/
structure Lap where
  index : Option Int := none
  start_time : Timestamp
  total_time : Option ℚ := none
  total_distance : Option ℚ := none
  max_speed : Option ℚ := none
  avg_speed : Option ℚ := none
  total_calories : Option ℚ := none
  avg_heart_rate : Option Int := none
  max_heart_rate : Option Int := none
  avg_cadence : Option Int := none
  max_cadence : Option Int := none
  avg_power : Option Int := none
  max_power : Option Int := none
  total_ascent : Option ℚ := none
  total_descent : Option ℚ := none
  intensity : Option String := none
  trigger : Option String := none
  start_index : Option Int := none
  end_index : Option Int := none
deriving Repr, DecidableEq

/-- pydantic construction of a `Lap`: range checks of the constrained field
types (`Meters`, `SpeedMS`, `BPM`, `RPM`, `Watts`). `total_calories`,
`total_ascent`, `total_descent` are plain floats; `start_index`/`end_index`
are plain optional ints with no constraint. -/
def mkLap (index : Option Int) (start_time : Timestamp)
    (total_time total_distance max_speed avg_speed total_calories : Option ℚ)
    (avg_heart_rate max_heart_rate avg_cadence max_cadence avg_power max_power : Option Int)
    (total_ascent total_descent : Option ℚ) (intensity trigger : Option String)
    (start_index end_index : Option Int) : Except String Lap :=
  if !(total_distance.all fun x => decide (0 ≤ x)) then
    .error "total_distance must be non-negative"
  else if !(max_speed.all fun x => decide (0 ≤ x)) then
    .error "max_speed must be non-negative"
  else if !(avg_speed.all fun x => decide (0 ≤ x)) then
    .error "avg_speed must be non-negative"
  else if !(avg_heart_rate.all fun x => decide (0 ≤ x)) then
    .error "avg_heart_rate must be non-negative"
  else if !(max_heart_rate.all fun x => decide (0 ≤ x)) then
    .error "max_heart_rate must be non-negative"
  else if !(avg_cadence.all fun x => decide (0 ≤ x)) then
    .error "avg_cadence must be non-negative"
  else if !(max_cadence.all fun x => decide (0 ≤ x)) then
    .error "max_cadence must be non-negative"
  else if !(avg_power.all fun x => decide (0 ≤ x)) then
    .error "avg_power must be non-negative"
  else if !(max_power.all fun x => decide (0 ≤ x)) then
    .error "max_power must be non-negative"
  else
    .ok { index := index, start_time := start_time, total_time := total_time,
          total_distance := total_distance, max_speed := max_speed,
          avg_speed := avg_speed, total_calories := total_calories,
          avg_heart_rate := avg_heart_rate, max_heart_rate := max_heart_rate,
          avg_cadence := avg_cadence, max_cadence := max_cadence,
          avg_power := avg_power, max_power := max_power,
          total_ascent := total_ascent, total_descent := total_descent,
          intensity := intensity, trigger := trigger,
          start_index := start_index, end_index := end_index }

/-- `models/device.py`, class `DeviceInfo`: descriptive only, no
constraints. -/
structure DeviceInfo where
  device_name : Option String := none
  manufacturer : Option String := none
  product_id : Option String := none
  firmware_version : Option String := none
deriving Repr, DecidableEq

/-- `core/activity.py`, class `SportActivity`. -/
structure SportActivity where
  id : Option String := none
  source_format : Option String := none
  sport_type : Option String := none
  sport_subtype : Option String := none
  start_time : Option Timestamp := none
  total_distance : Option ℚ := none
  total_calories : Option ℚ := none
  total_ascent : Option ℚ := none
  total_descent : Option ℚ := none
  device_info : Option DeviceInfo := none
  laps : List Lap := []
  track_points : List TrackPoint := []
deriving Repr, DecidableEq

/-- The comparison the `track_points` field validator sorts by
(`key=lambda tp: tp.timestamp`). -/
def tpLE (a b : TrackPoint) : Prop := a.timestamp ≤ b.timestamp

instance : DecidableRel tpLE := fun a b => Int.decLe a.timestamp b.timestamp

instance : IsTotal TrackPoint tpLE := ⟨fun a b => Int.le_total a.timestamp b.timestamp⟩

instance : IsTrans TrackPoint tpLE := ⟨fun _ _ _ hab hbc => le_trans hab hbc⟩

/-- `SportActivity._ensure_sorted_by_time`: `sorted(v, key=lambda tp:
tp.timestamp)`.  Python's `sorted` is a stable sort; `List.insertionSort`
with the non-strict key comparison is a stable sort. -/
def ensure_sorted_by_time (v : List TrackPoint) : List TrackPoint :=
  v.insertionSort tpLE

/-- First statement of `SportActivity._derive_summary_fields`: derive
`start_time` from the first track point if missing. -/
def deriveStartTime (a : SportActivity) : SportActivity :=
  match a.start_time, a.track_points with
  | none, tp :: _ => { a with start_time := some tp.timestamp }
  | _, _ => a

/-- Second statement of `SportActivity._derive_summary_fields`: derive
`total_distance` from the last point with a distance if missing.  Because
the model has `validate_assignment=True`, the assignment
`self.total_distance = ...` re-checks the `Meters` (non-negative) bound. -/
def deriveTotalDistance (a1 : SportActivity) : Except String SportActivity :=
  match a1.total_distance, a1.track_points.reverse.findSome? (fun tp => tp.distance) with
  | none, some d =>
      if decide (0 ≤ d) then .ok { a1 with total_distance := some d }
      else .error "total_distance must be non-negative"
  | _, _ => .ok a1

/-- `SportActivity._derive_summary_fields` (pydantic `model_validator`,
`mode="after"`): the two backfill statements in source order. -/
def derive_summary_fields (a : SportActivity) : Except String SportActivity :=
  deriveTotalDistance (deriveStartTime a)

/-- pydantic construction of a `SportActivity`: field validation
(`source_format` literal, `Meters` bound on `total_distance`, the
`_ensure_sorted_by_time` field validator on `track_points`), then the
`_derive_summary_fields` model validator. -/
def mkSportActivity (id source_format sport_type sport_subtype : Option String)
    (start_time : Option Timestamp)
    (total_distance total_calories total_ascent total_descent : Option ℚ)
    (device_info : Option DeviceInfo) (laps : List Lap)
    (track_points : List TrackPoint) : Except String SportActivity :=
  if !(source_format.all fun s => decide (s = "gpx" ∨ s = "tcx" ∨ s = "fit" ∨ s = "other")) then
    .error "source_format must be one of gpx, tcx, fit, other"
  else if !(total_distance.all fun x => decide (0 ≤ x)) then
    .error "total_distance must be non-negative"
  else
    derive_summary_fields
      { id := id, source_format := source_format, sport_type := sport_type,
        sport_subtype := sport_subtype, start_time := start_time,
        total_distance := total_distance, total_calories := total_calories,
        total_ascent := total_ascent, total_descent := total_descent,
        device_info := device_info, laps := laps,
        track_points := ensure_sorted_by_time track_points }

/-- `SportActivity.end_time` property: last point's timestamp, `None` when
there are no points. -/
def SportActivity.end_time (a : SportActivity) : Option Timestamp :=
  (a.track_points.getLast?).map fun tp => tp.timestamp

/-- `SportActivity.has_gps` property: some point has both coordinates. -/
def SportActivity.has_gps (a : SportActivity) : Bool :=
  a.track_points.any fun tp => tp.latitude.isSome && tp.longitude.isSome

/-- The `{min_lat, max_lat, min_lon, max_lon}` dictionary returned by
`SportActivity.bounding_box`. -/
structure BoundingBox where
  min_lat : ℚ
  max_lat : ℚ
  min_lon : ℚ
  max_lon : ℚ
deriving Repr, DecidableEq

/-- Python's `min` over a non-empty list, given as head and tail. -/
def pyMin (x : ℚ) (xs : List ℚ) : ℚ := xs.foldl min x

/-- Python's `max` over a non-empty list, given as head and tail. -/
def pyMax (x : ℚ) (xs : List ℚ) : ℚ := xs.foldl max x

/-- `SportActivity.bounding_box` property: min/max over the list of set
latitudes and the list of set longitudes (collected independently in the
code); `None` when either list is empty. -/
def SportActivity.bounding_box (a : SportActivity) : Option BoundingBox :=
  let lats := a.track_points.filterMap fun tp => tp.latitude
  let lons := a.track_points.filterMap fun tp => tp.longitude
  match lats, lons with
  | la :: las, lo :: los =>
      some { min_lat := pyMin la las, max_lat := pyMax la las,
             min_lon := pyMin lo los, max_lon := pyMax lo los }
  | _, _ => none

/-! ### TCX loader (`loaders/tcx_loader.py`)

The XML tree is embedded after `lxml.objectify` has parsed it: each element
the loader looks up with `find`/`findall`/`get` is a field of the structures
below, absent elements being `none`.  Leaf elements whose text the loader
converts with `float(...)`/`int(...)` are carried as already-converted
numbers; the `Time` text and the `StartTime` attribute, whose parsing the
claims are about, are carried as raw strings. -/

/-- `Position` element: `LatitudeDegrees` and `LongitudeDegrees` children
are looked up (and converted) independently. -/
structure TCXPosition where
  latitudeDegrees : Option ℚ := none
  longitudeDegrees : Option ℚ := none
deriving Repr, DecidableEq

/-- `Trackpoint` element.  `heartRateBpm` is the optional `HeartRateBpm`
element, itself holding an optional `Value` child. -/
structure TCXTrackpoint where
  time : Option String := none
  position : Option TCXPosition := none
  heartRateBpm : Option (Option Int) := none
  altitudeMeters : Option ℚ := none
  distanceMeters : Option ℚ := none
  cadence : Option Int := none
deriving Repr, DecidableEq

/-- `Track` element: a list of `Trackpoint` children. -/
structure TCXTrack where
  trackpoints : List TCXTrackpoint := []
deriving Repr, DecidableEq

/-- `Lap` element: the `StartTime` attribute, `Track` children, and the
summary child elements the loader reads. -/
structure TCXLap where
  startTime : Option String := none
  tracks : List TCXTrack := []
  totalTimeSeconds : Option ℚ := none
  distanceMeters : Option ℚ := none
  maximumSpeed : Option ℚ := none
  calories : Option ℚ := none
  averageHeartRateBpm : Option (Option Int) := none
  maximumHeartRateBpm : Option (Option Int) := none
  cadence : Option Int := none
  intensity : Option String := none
  triggerMethod : Option String := none
deriving Repr, DecidableEq

/-- `Version` element under `Creator`: the texts of `VersionMajor` and
`VersionMinor`. -/
structure TCXVersion where
  versionMajor : Option String := none
  versionMinor : Option String := none
deriving Repr, DecidableEq

/-- `Creator` element. -/
structure TCXCreator where
  name : Option String := none
  productId : Option String := none
  version : Option TCXVersion := none
deriving Repr, DecidableEq

/-- `Activity` element: the `Sport` attribute, `Lap` children in document
order, and the optional `Creator`. -/
structure TCXActivity where
  sport : Option String := none
  laps : List TCXLap := []
  creator : Option TCXCreator := none
deriving Repr, DecidableEq

/-- `Activities` element: the loader takes the first `Activity` child. -/
structure TCXActivities where
  activity : Option TCXActivity := none
deriving Repr, DecidableEq

/-- A well-formed TCX document: the root with its optional `Activities`
subtree. -/
structure TCXDocument where
  activities : Option TCXActivities := none
deriving Repr, DecidableEq

/-- Python's `str` applied to the result of `find`: an element prints as its
text, `None` prints as the string `"None"`. -/
def pyStr : Option String → String
  | none => "None"
  | some s => s

/-- Replace every occurrence of the character `c` by the string `r`. -/
def replaceCharList (c : Char) (r : List Char) : List Char → List Char
  | [] => []
  | x :: xs =>
      if x = c then r ++ replaceCharList c r xs
      else x :: replaceCharList c r xs

/-- Python's `.replace("Z", "+00:00")` as the loader applies it to timestamp
text: the pattern is the single character `Z`, so this is a per-character
replacement. -/
def pyReplaceZ (s : String) : String :=
  String.mk (replaceCharList 'Z' "+00:00".toList s.toList)

/-- One decimal digit of a character, `none` for a non-digit. -/
def digitVal (c : Char) : Option Nat :=
  if c.isDigit then some (c.toNat - 48) else none

/-- Two-digit decimal number. -/
def parse2 (a b : Char) : Option Nat := do
  let x ← digitVal a
  let y ← digitVal b
  pure (10 * x + y)

/-- Four-digit decimal number. -/
def parse4 (a b c d : Char) : Option Nat := do
  let x ← parse2 a b
  let y ← parse2 c d
  pure (100 * x + y)

/-- Encode a validated date-time as a single integer, strictly monotone in
document order of the fields. -/
def isoDateTime (y1 y2 y3 y4 m1 m2 d1 d2 h1 h2 n1 n2 s1 s2 : Char) :
    Option Int := do
  let yr ← parse4 y1 y2 y3 y4
  let mo ← parse2 m1 m2
  let dy ← parse2 d1 d2
  let hr ← parse2 h1 h2
  let mi ← parse2 n1 n2
  let se ← parse2 s1 s2
  if 1 ≤ mo ∧ mo ≤ 12 ∧ 1 ≤ dy ∧ dy ≤ 31 ∧ hr ≤ 23 ∧ mi ≤ 59 ∧ se ≤ 59 then
    pure ((((((yr * 12 + (mo - 1)) * 31 + (dy - 1)) * 24 + hr) * 60 + mi) * 60 + se : Nat) : Int)
  else
    none

/-- Model of the standard library's `datetime.fromisoformat` on the shapes
the loader feeds it: `YYYY-MM-DDTHH:MM:SS`, optionally followed by a
`±HH:MM` offset (the loader first rewrites a trailing `Z` to `+00:00`).
Returns `none` exactly where `fromisoformat` raises `ValueError` (e.g. on
`"not-a-date"`). -/
def fromIsoformat (s : String) : Option Timestamp :=
  match s.toList with
  | [y1, y2, y3, y4, '-', m1, m2, '-', d1, d2, 'T', h1, h2, ':', n1, n2, ':', s1, s2] =>
      isoDateTime y1 y2 y3 y4 m1 m2 d1 d2 h1 h2 n1 n2 s1 s2
  | [y1, y2, y3, y4, '-', m1, m2, '-', d1, d2, 'T', h1, h2, ':', n1, n2, ':', s1, s2,
     sg, o1, o2, ':', p1, p2] => do
      let base ← isoDateTime y1 y2 y3 y4 m1 m2 d1 d2 h1 h2 n1 n2 s1 s2
      let oh ← parse2 o1 o2
      let om ← parse2 p1 p2
      let off : Int := ((oh * 60 + om) * 60 : Nat)
      if sg = '+' then pure (base - off)
      else if sg = '-' then pure (base + off)
      else none

  | _ => none

/-- `datetime.fromisoformat(str(time_elem).replace("Z", "+00:00"))` for a
trackpoint's `Time` element, as an `Except` (a `ValueError` aborts the
load). -/
def parseTpTime (time : Option String) : Except String Timestamp :=
  match fromIsoformat (pyReplaceZ (pyStr time)) with
  | none => .error "ValueError: invalid isoformat string"
  | some t => .ok t

/-- Extraction of one `Trackpoint` element inside `load_tcx`: position pair,
heart rate, time, altitude, distance, cadence, then `TrackPoint`
construction with `source_index := global_index`. -/
def loadTrackpoint (global_index : Nat) (tpe : TCXTrackpoint) :
    Except String TrackPoint := do
  let lat : Option ℚ :=
    match tpe.position with
    | none => none
    | some pos => pos.latitudeDegrees
  let lon : Option ℚ :=
    match tpe.position with
    | none => none
    | some pos => pos.longitudeDegrees
  let hr : Option Int := tpe.heartRateBpm.join
  let ts ← parseTpTime tpe.time
  mkTrackPoint ts lat lon tpe.altitudeMeters tpe.distanceMeters none hr
    tpe.cadence none none (some (global_index : Int))

/-- The inner loop of `load_tcx` over the `Trackpoint` children of one
`Track`, threading the global ordinal and the accumulated points. -/
def loadPoints (global_index : Nat) (acc : List TrackPoint) :
    List TCXTrackpoint → Except String (Nat × List TrackPoint)
  | [] => .ok (global_index, acc)
  | tpe :: rest => do
      let tp ← loadTrackpoint global_index tpe
      loadPoints (global_index + 1) (acc ++ [tp]) rest

/-- The loop of `load_tcx` over the `Track` children of one `Lap`. -/
def loadTracks (global_index : Nat) (acc : List TrackPoint) :
    List TCXTrack → Except String (Nat × List TrackPoint)
  | [] => .ok (global_index, acc)
  | t :: rest => do
      let r ← loadPoints global_index acc t.trackpoints
      loadTracks r.1 r.2 rest

/-- `lap_elem.get("StartTime").replace("Z", "+00:00")` then
`datetime.fromisoformat`: a missing attribute makes `.replace` raise
(`AttributeError` on `None`), an unparsable one raises `ValueError`. -/
def parseLapStart (startTime : Option String) : Except String Timestamp :=
  match startTime with
  | none => .error "AttributeError: NoneType object has no attribute replace"
  | some s =>
      match fromIsoformat (pyReplaceZ s) with
      | none => .error "ValueError: invalid isoformat string"
      | some t => .ok t

/-- State threaded through the lap loop of `load_tcx`. -/
structure LoadState where
  laps : List Lap := []
  track_points : List TrackPoint := []
  global_index : Nat := 0
deriving Repr, DecidableEq

/-- One iteration of the lap loop of `load_tcx`: parse `StartTime`, record
`lap_start_index`, load the lap's points, then build the `Lap` with
`start_index = lap_start_index` and
`end_index = global_index - 1 if global_index > 0 else None`. -/
def loadLap (lap_idx : Nat) (st : LoadState) (lapElem : TCXLap) :
    Except String LoadState := do
  let lap_start ← parseLapStart lapElem.startTime
  let lap_start_index := st.global_index
  let r ← loadTracks st.global_index st.track_points lapElem.tracks
  let avg_hr : Option Int := lapElem.averageHeartRateBpm.join
  let max_hr : Option Int := lapElem.maximumHeartRateBpm.join
  let lap ← mkLap (some (lap_idx : Int)) lap_start lapElem.totalTimeSeconds
    lapElem.distanceMeters lapElem.maximumSpeed none lapElem.calories
    avg_hr max_hr lapElem.cadence none none none none none
    lapElem.intensity lapElem.triggerMethod
    (some (lap_start_index : Int))
    (if r.1 > 0 then some ((r.1 : Int) - 1) else none)
  .ok { laps := st.laps ++ [lap], track_points := r.2, global_index := r.1 }

/-- The `enumerate`d lap loop of `load_tcx`. -/
def loadLaps (lap_idx : Nat) (st : LoadState) :
    List TCXLap → Except String LoadState
  | [] => .ok st
  | l :: rest => do
      let st1 ← loadLap lap_idx st l
      loadLaps (lap_idx + 1) st1 rest

/-- Device-info extraction of `load_tcx` from the optional `Creator`
subtree: firmware is `major.minor` when both version components are
present, the major text alone when only it is, else unset. -/
def loadDeviceInfo : Option TCXCreator → Option DeviceInfo
  | none => none
  | some c =>
      let firmware : Option String :=
        match c.version with
        | none => none
        | some v =>
            match v.versionMajor, v.versionMinor with
            | some ma, some mi => some (ma ++ "." ++ mi)
            | some ma, none => some ma
            | none, _ => none
      some { device_name := c.name, manufacturer := none,
             product_id := c.productId, firmware_version := firmware }

/-- `load_tcx`: navigate to `Activities`/`Activity` (returning `none`, not
an error, when either is absent), walk the laps, extract device info, and
construct the `SportActivity` with `source_format="tcx"`. -/
def load_tcx (doc : TCXDocument) : Except String (Option SportActivity) :=
  match doc.activities with
  | none => .ok none
  | some activities =>
      match activities.activity with
      | none => .ok none
      | some activity => do
          let st ← loadLaps 0 {} activity.laps
          let device_info := loadDeviceInfo activity.creator
          let a ← mkSportActivity none (some "tcx") activity.sport none
            none none none none none device_info st.laps st.track_points
          .ok (some a)

/-! ### Spec-side definitions and concrete inputs -/

/-- The coordinate pairs of the coordinate-bearing points, as the spec words
it: a point contributes exactly when it carries both coordinates. -/
def gpsPairs (l : List TrackPoint) : List (ℚ × ℚ) :=
  l.filterMap fun tp =>
    match tp.latitude, tp.longitude with
    | some la, some lo => some (la, lo)
    | _, _ => none

/-- The bounding box as the spec words it: componentwise min/max of latitude
and longitude over all coordinate-bearing track points, undefined when no
point has coordinates. -/
def specBoundingBox (a : SportActivity) : Option BoundingBox :=
  match gpsPairs a.track_points with
  | [] => none
  | q :: qs =>
      some { min_lat := pyMin q.1 (qs.map Prod.fst),
             max_lat := pyMax q.1 (qs.map Prod.fst),
             min_lon := pyMin q.2 (qs.map Prod.snd),
             max_lon := pyMax q.2 (qs.map Prod.snd) }

/-- A `Trackpoint` element carrying only a `Time` child. -/
def timeOnlyTp (s : String) : TCXTrackpoint := { time := some s }

/-- A TCX lap with one trackpoint. -/
def lapOnePoint : TCXLap :=
  { startTime := some "2020-01-01T00:00:00Z",
    tracks := [{ trackpoints := [timeOnlyTp "2020-01-01T00:00:01Z"] }] }

/-- A TCX lap containing zero trackpoints. -/
def lapEmpty : TCXLap := { startTime := some "2020-01-01T00:01:00Z" }

/-- A document whose first lap holds one trackpoint and whose second lap
holds none. -/
def docOnePointThenEmptyLap : TCXDocument :=
  { activities := some { activity := some { laps := [lapOnePoint, lapEmpty] } } }

/-- A document with a single lap containing zero trackpoints. -/
def docSingleEmptyLap : TCXDocument :=
  { activities := some { activity := some { laps := [lapEmpty] } } }

/-- First of two consecutive laps of three trackpoints each. -/
def lapThreeA : TCXLap :=
  { startTime := some "2020-01-01T00:00:00Z",
    tracks := [{ trackpoints := [timeOnlyTp "2020-01-01T00:00:01Z",
                                 timeOnlyTp "2020-01-01T00:00:02Z",
                                 timeOnlyTp "2020-01-01T00:00:03Z"] }] }

/-- Second of two consecutive laps of three trackpoints each. -/
def lapThreeB : TCXLap :=
  { startTime := some "2020-01-01T00:01:00Z",
    tracks := [{ trackpoints := [timeOnlyTp "2020-01-01T00:01:01Z",
                                 timeOnlyTp "2020-01-01T00:01:02Z",
                                 timeOnlyTp "2020-01-01T00:01:03Z"] }] }

/-- A document with two laps of three trackpoints each. -/
def docTwoLapsOfThree : TCXDocument :=
  { activities := some { activity := some { laps := [lapThreeA, lapThreeB] } } }

/-- A lap whose single trackpoint has `Time` text `"not-a-date"`. -/
def lapNotADate : TCXLap :=
  { startTime := some "2020-01-01T00:00:00Z",
    tracks := [{ trackpoints := [timeOnlyTp "not-a-date"] }] }

/-- A document whose single trackpoint has `Time` text `"not-a-date"`. -/
def docNotADate : TCXDocument :=
  { activities := some { activity := some { laps := [lapNotADate] } } }

/-- Points with distances `[none, 120, none]` in timestamp order. -/
def distExamplePoints : List TrackPoint :=
  [{ timestamp := 0 }, { timestamp := 1, distance := some 120 }, { timestamp := 2 }]

/-- An activity holding GPS pairs `(10,20)` and `(12,18)` plus one point
with no GPS. -/
def gpsExampleActivity : SportActivity :=
  { track_points :=
      [{ timestamp := 0, latitude := some 10, longitude := some 20 },
       { timestamp := 1, latitude := some 12, longitude := some 18 },
       { timestamp := 2 }] }

deriving instance DecidableEq for Except

/-- The activity pydantic construction yields from two out-of-order
points. -/
def twoPointActivity : SportActivity :=
  { start_time := some 0,
    track_points := [{ timestamp := 0 }, { timestamp := 1 }] }

/-- The activity pydantic construction yields from one point carrying
distance 10 at time 5. -/
def onePointDistActivity : SportActivity :=
  { start_time := some 5, total_distance := some 10,
    track_points := [{ timestamp := 5, distance := some 10 }] }

/-- The activity pydantic construction yields from `distExamplePoints`. -/
def distExampleActivity : SportActivity :=
  { start_time := some 0, total_distance := some 120,
    track_points := distExamplePoints }

/-- A track point as `load_tcx` builds it from a time-only `Trackpoint`. -/
def plainTp (t : Timestamp) (i : Int) : TrackPoint :=
  { timestamp := t, source_index := some i }

/-- The activity `load_tcx` produces for `docOnePointThenEmptyLap`: the
second (empty) lap received `start_index = 1 > end_index = 0`. -/
def onePtEmptyActivity : SportActivity :=
  { source_format := some "tcx", start_time := some 64924416001,
    laps := [{ index := some 0, start_time := 64924416000,
               start_index := some 0, end_index := some 0 },
             { index := some 1, start_time := 64924416060,
               start_index := some 1, end_index := some 0 }],
    track_points := [plainTp 64924416001 0] }

/-- The activity `load_tcx` produces for `docTwoLapsOfThree`. -/
def twoLapsOfThreeActivity : SportActivity :=
  { source_format := some "tcx", start_time := some 64924416001,
    laps := [{ index := some 0, start_time := 64924416000,
               start_index := some 0, end_index := some 2 },
             { index := some 1, start_time := 64924416060,
               start_index := some 3, end_index := some 5 }],
    track_points := [plainTp 64924416001 0, plainTp 64924416002 1,
                     plainTp 64924416003 2, plainTp 64924416061 3,
                     plainTp 64924416062 4, plainTp 64924416063 5] }

/-- The activity `load_tcx` produces for `docSingleEmptyLap`: the empty lap
still received a `start_index`. -/
def singleEmptyLapActivity : SportActivity :=
  { source_format := some "tcx",
    laps := [{ index := some 0, start_time := 64924416060,
               start_index := some 0, end_index := none }] }

/-! ### Helper lemmas -/

/-- The sort performed by the `track_points` field validator produces a
timeline whose `tpLE` comparisons all hold pairwise. -/
theorem ensure_sorted_pairwise (l : List TrackPoint) :
    (ensure_sorted_by_time l).Pairwise tpLE :=
  List.sorted_insertionSort tpLE l

/-- The sorted timeline is a permutation of the input. -/
theorem ensure_sorted_perm (l : List TrackPoint) :
    List.Perm (ensure_sorted_by_time l) l :=
  List.perm_insertionSort tpLE l

/-- Stability of the sort: the points carrying any fixed timestamp appear
in the sorted timeline exactly in their original relative order. -/
theorem ensure_sorted_filter (l : List TrackPoint) (t : Timestamp) :
    (ensure_sorted_by_time l).filter (fun tp => decide (tp.timestamp = t)) =
      l.filter (fun tp => decide (tp.timestamp = t)) := by
  have hpair : (l.filter fun tp => decide (tp.timestamp = t)).Pairwise tpLE := by
    apply List.pairwise_of_forall_mem_list
    intro a ha b hb
    have ha' := (List.mem_filter.mp ha).2
    have hb' := (List.mem_filter.mp hb).2
    simp only [decide_eq_true_eq] at ha' hb'
    simp only [tpLE, ha', hb', le_refl]
  have hsub : List.Sublist (l.filter fun tp => decide (tp.timestamp = t))
      (ensure_sorted_by_time l) :=
    List.sublist_insertionSort hpair (List.filter_sublist l)
  have hself : ((l.filter fun tp => decide (tp.timestamp = t)).filter
      fun tp => decide (tp.timestamp = t)) = l.filter fun tp => decide (tp.timestamp = t) :=
    List.filter_eq_self.mpr fun a ha => (List.mem_filter.mp ha).2
  have hsub2 : List.Sublist (l.filter fun tp => decide (tp.timestamp = t))
      ((ensure_sorted_by_time l).filter fun tp => decide (tp.timestamp = t)) := by
    have := hsub.filter fun tp => decide (tp.timestamp = t)
    rwa [hself] at this
  have hlen : ((ensure_sorted_by_time l).filter fun tp => decide (tp.timestamp = t)).length
      = (l.filter fun tp => decide (tp.timestamp = t)).length :=
    ((ensure_sorted_perm l).filter _).length_eq
  exact (hsub2.eq_of_length hlen.symm).symm

/-- The `start_time` backfill touches no field but `start_time`, and leaves
`start_time` unset only when there are no points. -/
theorem deriveStartTime_spec (x : SportActivity) :
    (deriveStartTime x).track_points = x.track_points ∧
    (deriveStartTime x).laps = x.laps ∧
    (deriveStartTime x).id = x.id ∧
    (deriveStartTime x).source_format = x.source_format ∧
    (deriveStartTime x).sport_type = x.sport_type ∧
    (deriveStartTime x).sport_subtype = x.sport_subtype ∧
    (deriveStartTime x).total_calories = x.total_calories ∧
    (deriveStartTime x).total_ascent = x.total_ascent ∧
    (deriveStartTime x).total_descent = x.total_descent ∧
    (deriveStartTime x).device_info = x.device_info ∧
    (deriveStartTime x).total_distance = x.total_distance ∧
    ((deriveStartTime x).start_time = none → x.start_time = none ∧ x.track_points = []) := by
  unfold deriveStartTime
  rcases hst : x.start_time with _ | st <;> rcases htp : x.track_points with _ | ⟨tp, rest⟩ <;>
    simp [hst, htp]

/-- The `total_distance` backfill touches no field but `total_distance`;
when it succeeds, either `total_distance` was already set (and no point
carried a distance if it is unset), or it was unset and now carries the
first distance found scanning from the end, checked non-negative. -/
theorem deriveTotalDistance_spec (x a : SportActivity)
    (h : deriveTotalDistance x = .ok a) :
    a.track_points = x.track_points ∧ a.laps = x.laps ∧ a.id = x.id ∧
    a.source_format = x.source_format ∧ a.sport_type = x.sport_type ∧
    a.sport_subtype = x.sport_subtype ∧ a.total_calories = x.total_calories ∧
    a.total_ascent = x.total_ascent ∧ a.total_descent = x.total_descent ∧
    a.device_info = x.device_info ∧ a.start_time = x.start_time ∧
    ((a.total_distance = x.total_distance ∧
       (x.total_distance = none →
         x.track_points.reverse.findSome? (fun tp => tp.distance) = none)) ∨
     (x.total_distance = none ∧
       ∃ d, x.track_points.reverse.findSome? (fun tp => tp.distance) = some d ∧
         0 ≤ d ∧ a.total_distance = some d)) := by
  unfold deriveTotalDistance at h
  split at h
  · rename_i d htd hfd
    split at h
    · rename_i hd0
      cases h
      simp only [decide_eq_true_eq] at hd0
      exact ⟨rfl, rfl, rfl, rfl, rfl, rfl, rfl, rfl, rfl, rfl, rfl,
        Or.inr ⟨htd, d, hfd, hd0, rfl⟩⟩
    · exact Except.noConfusion h
  · rename_i hfind
    cases h
    refine ⟨rfl, rfl, rfl, rfl, rfl, rfl, rfl, rfl, rfl, rfl, rfl,
      Or.inl ⟨rfl, fun htdn => ?_⟩⟩
    cases hfs : x.track_points.reverse.findSome? (fun tp => tp.distance) with
    | none => rfl
    | some d => exact (hfind d htdn hfs).elim

/-- Everything pydantic construction via `_derive_summary_fields` guarantees
about the fields of the resulting activity. -/
theorem derive_ok_spec (x a : SportActivity) (h : derive_summary_fields x = .ok a) :
    a.track_points = x.track_points ∧ a.laps = x.laps ∧ a.id = x.id ∧
    a.source_format = x.source_format ∧ a.sport_type = x.sport_type ∧
    a.sport_subtype = x.sport_subtype ∧ a.total_calories = x.total_calories ∧
    a.total_ascent = x.total_ascent ∧ a.total_descent = x.total_descent ∧
    a.device_info = x.device_info ∧
    (a.start_time = none → a.track_points = []) ∧
    ((a.total_distance = x.total_distance ∧
       (x.total_distance = none →
         x.track_points.reverse.findSome? (fun tp => tp.distance) = none)) ∨
     (x.total_distance = none ∧
       ∃ d, x.track_points.reverse.findSome? (fun tp => tp.distance) = some d ∧
         0 ≤ d ∧ a.total_distance = some d)) := by
  obtain ⟨s1, s2, s3, s4, s5, s6, s7, s8, s9, s10, s11, s12⟩ := deriveStartTime_spec x
  obtain ⟨t1, t2, t3, t4, t5, t6, t7, t8, t9, t10, t11, t12⟩ :=
    deriveTotalDistance_spec (deriveStartTime x) a h
  refine ⟨t1.trans s1, t2.trans s2, t3.trans s3, t4.trans s4, t5.trans s5,
    t6.trans s6, t7.trans s7, t8.trans s8, t9.trans s9, t10.trans s10,
    fun hn => ?_, ?_⟩
  · exact (t1.trans s1).trans (s12 (t11.symm.trans hn)).2
  · rw [s1, s11] at t12
    exact t12

/-- Everything pydantic construction of a `SportActivity` guarantees about
the constructed value. -/
theorem mk_ok_spec (id sf stp sst : Option String) (stt : Option Timestamp)
    (td tc ta tdc : Option ℚ) (di : Option DeviceInfo) (laps : List Lap)
    (tps : List TrackPoint) (a : SportActivity)
    (h : mkSportActivity id sf stp sst stt td tc ta tdc di laps tps = .ok a) :
    a.id = id ∧ a.source_format = sf ∧ a.sport_type = stp ∧ a.sport_subtype = sst ∧
    a.total_calories = tc ∧ a.total_ascent = ta ∧ a.total_descent = tdc ∧
    a.device_info = di ∧ a.laps = laps ∧
    a.track_points = ensure_sorted_by_time tps ∧
    (sf.all fun s => decide (s = "gpx" ∨ s = "tcx" ∨ s = "fit" ∨ s = "other")) = true ∧
    (∀ d, a.total_distance = some d → 0 ≤ d) ∧
    (a.start_time = none → a.track_points = []) ∧
    (a.total_distance = none →
      a.track_points.reverse.findSome? (fun tp => tp.distance) = none) ∧
    (td = none →
      a.total_distance = a.track_points.reverse.findSome? (fun tp => tp.distance)) := by
  unfold mkSportActivity at h
  split at h
  · exact Except.noConfusion h
  · split at h
    · exact Except.noConfusion h
    · rename_i hsf htd
      obtain ⟨d1, d2, d3, d4, d5, d6, d7, d8, d9, d10, d11, d12⟩ := derive_ok_spec _ a h
      have hsf' : (sf.all fun s =>
          decide (s = "gpx" ∨ s = "tcx" ∨ s = "fit" ∨ s = "other")) = true := by
        revert hsf
        cases sf.all fun s => decide (s = "gpx" ∨ s = "tcx" ∨ s = "fit" ∨ s = "other") <;>
          simp
      have htd' : (td.all fun x => decide (0 ≤ x)) = true := by
        revert htd
        cases td.all fun x => decide (0 ≤ x) <;> simp
      have hnn : ∀ e, a.total_distance = some e → 0 ≤ e := by
        rcases d12 with ⟨heq, _⟩ | ⟨_, d, hfd, hd0, ha⟩
        · intro e he
          have he' : td = some e := heq.symm.trans he
          rw [he'] at htd'
          simpa using htd'
        · intro e he
          rw [ha] at he
          cases he
          exact hd0
      have hnone : a.total_distance = none →
          a.track_points.reverse.findSome? (fun tp => tp.distance) = none := by
        intro han
        rcases d12 with ⟨heq, himp⟩ | ⟨_, d, hfd, _, ha⟩
        · rw [d1]
          exact himp (heq.symm.trans han)
        · rw [ha] at han
          exact Option.noConfusion han
      have hback : td = none →
          a.total_distance = a.track_points.reverse.findSome? (fun tp => tp.distance) := by
        intro htdn
        rcases d12 with ⟨heq, himp⟩ | ⟨_, d, hfd, _, ha⟩
        · rw [heq.trans htdn, d1, himp htdn]
        · rw [ha, d1, hfd]
      exact ⟨d3, d4, d5, d6, d7, d8, d9, d10, d2, d1, hsf', hnn, d11, hnone, hback⟩

/-- Re-running pydantic construction on the fields of an
already-constructed activity returns that activity unchanged. -/
theorem mk_rerun (a : SportActivity)
    (hsf : (a.source_format.all fun s =>
      decide (s = "gpx" ∨ s = "tcx" ∨ s = "fit" ∨ s = "other")) = true)
    (htd : ∀ d, a.total_distance = some d → 0 ≤ d)
    (hsort : a.track_points.Pairwise tpLE)
    (hst : a.start_time = none → a.track_points = [])
    (hfd : a.total_distance = none →
      a.track_points.reverse.findSome? (fun tp => tp.distance) = none) :
    mkSportActivity a.id a.source_format a.sport_type a.sport_subtype a.start_time
      a.total_distance a.total_calories a.total_ascent a.total_descent a.device_info
      a.laps a.track_points = .ok a := by
  have hsorted : ensure_sorted_by_time a.track_points = a.track_points :=
    List.Sorted.insertionSort_eq hsort
  have htd' : (a.total_distance.all fun x => decide (0 ≤ x)) = true := by
    cases hcase : a.total_distance with
    | none => rfl
    | some d => simpa using htd d hcase
  have hds : deriveStartTime a = a := by
    unfold deriveStartTime
    split
    · rename_i tp rest hstn hcons
      rw [hst hstn] at hcons
      exact List.noConfusion hcons
    · rfl
  have hdt : deriveTotalDistance a = .ok a := by
    unfold deriveTotalDistance
    split
    · rename_i d htdn hfs
      rw [hfd htdn] at hfs
      exact Option.noConfusion hfs
    · rfl
  unfold mkSportActivity
  rw [hsf, htd', hsorted]
  simp only [Bool.not_true, Bool.false_eq_true, if_false]
  show derive_summary_fields a = .ok a
  unfold derive_summary_fields
  rw [hds, hdt]

theorem bnot_not_true {c : Bool} (h : ¬((!c) = true)) : c = true := by
  cases c <;> simp_all

theorem xor_not_true {x y : Bool} (h : ¬((x ^^ y) = true)) : x = y := by
  cases x <;> cases y <;> simp_all

/-- What a successfully constructed `TrackPoint` records: the fields are
stored unchanged and every validation check passed. -/
theorem mkTrackPoint_ok_inv (ts : Timestamp) (lat lon elev dist spd : Option ℚ)
    (hr cad pw : Option Int) (temp : Option ℚ) (si : Option Int) (tp : TrackPoint)
    (h : mkTrackPoint ts lat lon elev dist spd hr cad pw temp si = .ok tp) :
    tp.latitude = lat ∧ tp.longitude = lon ∧
    (lat.all fun x => decide (-90 ≤ x ∧ x ≤ 90)) = true ∧
    (hr.all fun x => decide (0 ≤ x)) = true ∧
    lat.isSome = lon.isSome := by
  unfold mkTrackPoint at h
  split at h
  · exact Except.noConfusion h
  split at h
  · exact Except.noConfusion h
  split at h
  · exact Except.noConfusion h
  split at h
  · exact Except.noConfusion h
  split at h
  · exact Except.noConfusion h
  split at h
  · exact Except.noConfusion h
  split at h
  · exact Except.noConfusion h
  split at h
  · exact Except.noConfusion h
  rename_i hlat hlon hdist hspd hhr hcad hpw hgps
  cases h
  exact ⟨rfl, rfl, bnot_not_true hlat, bnot_not_true hhr, xor_not_true hgps⟩

/-! ### Claim theorems -/

/-- C1: for every activity a caller can observe (built by the constructor
from any list of track points), the resulting `track_points` list is sorted
non-decreasingly by timestamp, is a permutation of the input, and the sort
is stable: points with equal timestamps keep their original relative
order. -/
theorem track_points_sorted_and_stable (id sf stp sst : Option String)
    (stt : Option Timestamp) (td tc ta tdc : Option ℚ) (di : Option DeviceInfo)
    (laps : List Lap) (tps : List TrackPoint) (a : SportActivity)
    (h : mkSportActivity id sf stp sst stt td tc ta tdc di laps tps = .ok a) :
    a.track_points.Pairwise (fun x y => x.timestamp ≤ y.timestamp) ∧
    List.Perm a.track_points tps ∧
    ∀ t : Timestamp,
      a.track_points.filter (fun tp => decide (tp.timestamp = t)) =
        tps.filter (fun tp => decide (tp.timestamp = t)) := by
  obtain ⟨-, -, -, -, -, -, -, -, -, htps, -⟩ :=
    mk_ok_spec _ _ _ _ _ _ _ _ _ _ _ _ _ h
  rw [htps]
  refine ⟨?_, ensure_sorted_perm tps, fun t => ensure_sorted_filter tps t⟩
  exact (ensure_sorted_pairwise tps).imp fun hxy => hxy

theorem track_points_sorted_and_stable_witness :
    mkSportActivity none none none none none none none none none none []
        [{ timestamp := 1 }, { timestamp := 0 }] = .ok twoPointActivity ∧
    (twoPointActivity.track_points.Pairwise (fun x y => x.timestamp ≤ y.timestamp) ∧
     List.Perm twoPointActivity.track_points [{ timestamp := 1 }, { timestamp := 0 }] ∧
     ∀ t : Timestamp,
       twoPointActivity.track_points.filter (fun tp => decide (tp.timestamp = t)) =
         [({ timestamp := 1 } : TrackPoint),
          { timestamp := 0 }].filter (fun tp => decide (tp.timestamp = t))) := by
  have h : mkSportActivity none none none none none none none none none none []
      [{ timestamp := 1 }, { timestamp := 0 }] = .ok twoPointActivity := by decide
  exact ⟨h, track_points_sorted_and_stable none none none none none none none none
    none none [] [{ timestamp := 1 }, { timestamp := 0 }] twoPointActivity h⟩

/-- C4: running the derivation pass (sort, `start_time` backfill,
`total_distance` backfill) a second time on an activity already derived
once changes nothing: `start_time`, `total_distance`, `end_time` and
`bounding_box` are all unchanged (in fact the whole activity is returned
unchanged). -/
theorem derivation_pass_idempotent (id sf stp sst : Option String)
    (stt : Option Timestamp) (td tc ta tdc : Option ℚ) (di : Option DeviceInfo)
    (laps : List Lap) (tps : List TrackPoint) (a : SportActivity)
    (h : mkSportActivity id sf stp sst stt td tc ta tdc di laps tps = .ok a) :
    ∃ b, mkSportActivity a.id a.source_format a.sport_type a.sport_subtype
        a.start_time a.total_distance a.total_calories a.total_ascent
        a.total_descent a.device_info a.laps a.track_points = .ok b ∧
      b.start_time = a.start_time ∧ b.total_distance = a.total_distance ∧
      b.end_time = a.end_time ∧ b.bounding_box = a.bounding_box := by
  obtain ⟨-, hsf0, -, -, -, -, -, -, -, htps, hsfc, hnn, hstn, hfdn, -⟩ :=
    mk_ok_spec _ _ _ _ _ _ _ _ _ _ _ _ _ h
  have hsort : a.track_points.Pairwise tpLE := by
    rw [htps]
    exact ensure_sorted_pairwise tps
  have hsfc' : (a.source_format.all fun s =>
      decide (s = "gpx" ∨ s = "tcx" ∨ s = "fit" ∨ s = "other")) = true := by
    rw [hsf0]
    exact hsfc
  exact ⟨a, mk_rerun a hsfc' hnn hsort hstn hfdn, rfl, rfl, rfl, rfl⟩

theorem derivation_pass_idempotent_witness :
    mkSportActivity none none none none none none none none none none []
        [{ timestamp := 5, distance := some 10 }] = .ok onePointDistActivity ∧
    ∃ b, mkSportActivity onePointDistActivity.id onePointDistActivity.source_format
        onePointDistActivity.sport_type onePointDistActivity.sport_subtype
        onePointDistActivity.start_time onePointDistActivity.total_distance
        onePointDistActivity.total_calories onePointDistActivity.total_ascent
        onePointDistActivity.total_descent onePointDistActivity.device_info
        onePointDistActivity.laps onePointDistActivity.track_points = .ok b ∧
      b.start_time = onePointDistActivity.start_time ∧
      b.total_distance = onePointDistActivity.total_distance ∧
      b.end_time = onePointDistActivity.end_time ∧
      b.bounding_box = onePointDistActivity.bounding_box := by
  have h : mkSportActivity none none none none none none none none none none []
      [{ timestamp := 5, distance := some 10 }] = .ok onePointDistActivity := by
    decide
  exact ⟨h, derivation_pass_idempotent none none none none none none none none
    none none [] [{ timestamp := 5, distance := some 10 }] onePointDistActivity h⟩

/-- C5: `TrackPoint` construction fails with a validation error whenever
exactly one of latitude/longitude is set, a heart rate is negative, or a
latitude lies outside [-90, 90]; consequently every successfully
constructed point has latitude set iff longitude is set. -/
theorem trackpoint_gps_pair_validation (ts : Timestamp)
    (lat lon elev dist spd : Option ℚ) (hr cad pw : Option Int)
    (temp : Option ℚ) (si : Option Int) :
    ((lat.isSome ≠ lon.isSome ∨ (∃ b, hr = some b ∧ b < 0) ∨
        (∃ x, lat = some x ∧ (x < -90 ∨ 90 < x))) →
      ∃ e, mkTrackPoint ts lat lon elev dist spd hr cad pw temp si = .error e) ∧
    (∀ tp, mkTrackPoint ts lat lon elev dist spd hr cad pw temp si = .ok tp →
      tp.latitude.isSome = tp.longitude.isSome) := by
  constructor
  · intro hbad
    cases hres : mkTrackPoint ts lat lon elev dist spd hr cad pw temp si with
    | error e => exact ⟨e, rfl⟩
    | ok tp =>
        obtain ⟨-, -, hlatok, hhrok, hsym⟩ :=
          mkTrackPoint_ok_inv _ _ _ _ _ _ _ _ _ _ _ _ hres
        rcases hbad with hasym | ⟨b, hb, hbneg⟩ | ⟨x, hx, hxout⟩
        · exact (hasym hsym).elim
        · rw [hb] at hhrok
          simp at hhrok
          omega
        · rw [hx] at hlatok
          simp at hlatok
          rcases hxout with hlt | hgt
          · linarith [hlatok.1]
          · linarith [hlatok.2]
  · intro tp htp
    obtain ⟨h1, h2, -, -, hsym⟩ := mkTrackPoint_ok_inv _ _ _ _ _ _ _ _ _ _ _ _ htp
    rw [h1, h2]
    exact hsym

theorem trackpoint_gps_pair_validation_witness :
    (some (10 : ℚ)).isSome ≠ (none : Option ℚ).isSome ∧
    ∃ e, mkTrackPoint 0 (some 10) none none none none none none none none none
      = .error e := by
  refine ⟨by decide, ?_⟩
  exact (trackpoint_gps_pair_validation 0 (some 10) none none none none none
    none none none none).1 (Or.inl (by decide))

/-- C6: when an activity is constructed with `total_distance` unset, the
derivation pass sets it to the first non-unset per-point distance found
scanning the sorted `track_points` from the end, and leaves it unset when
no point carries a distance. -/
theorem total_distance_backfill (id sf stp sst : Option String)
    (stt : Option Timestamp) (tc ta tdc : Option ℚ) (di : Option DeviceInfo)
    (laps : List Lap) (tps : List TrackPoint) (a : SportActivity)
    (h : mkSportActivity id sf stp sst stt none tc ta tdc di laps tps = .ok a) :
    a.total_distance = a.track_points.reverse.findSome? (fun tp => tp.distance) := by
  obtain ⟨-, -, -, -, -, -, -, -, -, -, -, -, -, -, hb⟩ :=
    mk_ok_spec _ _ _ _ _ _ _ _ _ _ _ _ _ h
  exact hb rfl

theorem except_ok_bind {ε α β : Type} (a : α) (f : α → Except ε β) :
    (do let x ← Except.ok a; f x : Except ε β) = f a := rfl

theorem except_error_bind {ε α β : Type} (e : ε) (f : α → Except ε β) :
    (do let x ← (Except.error e : Except ε α); f x : Except ε β) = Except.error e :=
  rfl

/-- An unparsable `Time` text on any trackpoint of a `Track` aborts the
point loop with an error. -/
theorem loadPoints_error_of_bad (l : List TCXTrackpoint) (tpe : TCXTrackpoint)
    (hmem : tpe ∈ l)
    (hbad : fromIsoformat (pyReplaceZ (pyStr tpe.time)) = none) :
    ∀ gi acc, ∃ e, loadPoints gi acc l = .error e := by
  induction l with
  | nil => cases hmem
  | cons hd rest ih =>
      intro gi acc
      rcases List.mem_cons.mp hmem with heq | hmem'
      · subst heq
        refine ⟨"ValueError: invalid isoformat string", ?_⟩
        unfold loadPoints loadTrackpoint parseTpTime
        rw [hbad]
        rfl
      · unfold loadPoints
        cases hlt : loadTrackpoint gi hd with
        | error e => exact ⟨e, rfl⟩
        | ok tp =>
            obtain ⟨e, he⟩ := ih hmem' (gi + 1) (acc ++ [tp])
            exact ⟨e, he⟩

/-- An unparsable `Time` text on any trackpoint of any `Track` of a lap
aborts the track loop with an error. -/
theorem loadTracks_error_of_bad (ts : List TCXTrack) (track : TCXTrack)
    (tpe : TCXTrackpoint) (hmem : track ∈ ts) (hmem2 : tpe ∈ track.trackpoints)
    (hbad : fromIsoformat (pyReplaceZ (pyStr tpe.time)) = none) :
    ∀ gi acc, ∃ e, loadTracks gi acc ts = .error e := by
  induction ts with
  | nil => cases hmem
  | cons hd rest ih =>
      intro gi acc
      rcases List.mem_cons.mp hmem with heq | hmem'
      · subst heq
        obtain ⟨e, he⟩ := loadPoints_error_of_bad _ _ hmem2 hbad gi acc
        refine ⟨e, ?_⟩
        unfold loadTracks
        rw [he]
        rfl
      · unfold loadTracks
        cases hlp : loadPoints gi acc hd.trackpoints with
        | error e => exact ⟨e, rfl⟩
        | ok r =>
            obtain ⟨e, he⟩ := ih hmem' r.1 r.2
            exact ⟨e, he⟩

/-- An unparsable `Time` text anywhere inside a lap aborts that lap's
processing with an error. -/
theorem loadLap_error_of_bad (lapElem : TCXLap) (track : TCXTrack)
    (tpe : TCXTrackpoint) (hmem : track ∈ lapElem.tracks)
    (hmem2 : tpe ∈ track.trackpoints)
    (hbad : fromIsoformat (pyReplaceZ (pyStr tpe.time)) = none) :
    ∀ li st, ∃ e, loadLap li st lapElem = .error e := by
  intro li st
  unfold loadLap
  cases hps : parseLapStart lapElem.startTime with
  | error e => exact ⟨e, rfl⟩
  | ok t =>
      obtain ⟨e, he⟩ := loadTracks_error_of_bad _ _ _ hmem hmem2 hbad
        st.global_index st.track_points
      refine ⟨e, ?_⟩
      simp only [except_ok_bind]
      rw [he]
      rfl

/-- An unparsable `Time` text anywhere inside any lap aborts the lap loop
with an error. -/
theorem loadLaps_error_of_bad (ls : List TCXLap) (lap : TCXLap)
    (track : TCXTrack) (tpe : TCXTrackpoint) (hmem : lap ∈ ls)
    (hmem2 : track ∈ lap.tracks) (hmem3 : tpe ∈ track.trackpoints)
    (hbad : fromIsoformat (pyReplaceZ (pyStr tpe.time)) = none) :
    ∀ li st, ∃ e, loadLaps li st ls = .error e := by
  induction ls with
  | nil => cases hmem
  | cons hd rest ih =>
      intro li st
      rcases List.mem_cons.mp hmem with heq | hmem'
      · subst heq
        obtain ⟨e, he⟩ := loadLap_error_of_bad _ _ _ hmem2 hmem3 hbad li st
        refine ⟨e, ?_⟩
        unfold loadLaps
        rw [he]
        rfl
      · unfold loadLaps
        cases hll : loadLap li st hd with
        | error e => exact ⟨e, rfl⟩
        | ok st1 =>
            obtain ⟨e, he⟩ := ih hmem' (li + 1) st1
            exact ⟨e, he⟩

theorem total_distance_backfill_witness :
    mkSportActivity none none none none none none none none none none []
        distExamplePoints = .ok distExampleActivity ∧
    distExampleActivity.total_distance = some 120 := by
  have h : mkSportActivity none none none none none none none none none none []
      distExamplePoints = .ok distExampleActivity := by decide
  exact ⟨h, (total_distance_backfill none none none none none none none none
    none [] distExamplePoints distExampleActivity h).trans (by decide)⟩

/-- C7: a well-formed TCX document lacking the `Activities` subtree, or
lacking an `Activity` element under it, loads to `none` (a legitimate empty
result), not an error. -/
theorem missing_activity_subtree_loads_none :
    (∀ doc : TCXDocument, doc.activities = none → load_tcx doc = .ok none) ∧
    (∀ (doc : TCXDocument) (acts : TCXActivities), doc.activities = some acts →
      acts.activity = none → load_tcx doc = .ok none) := by
  constructor
  · intro doc h
    unfold load_tcx
    rw [h]
  · intro doc acts h1 h2
    unfold load_tcx
    rw [h1]
    show (match acts.activity with
      | none => Except.ok none
      | some activity => do
          let st ← loadLaps 0 {} activity.laps
          let device_info := loadDeviceInfo activity.creator
          let a ← mkSportActivity none (some "tcx") activity.sport none
            none none none none none device_info st.laps st.track_points
          Except.ok (some a)) = Except.ok none
    rw [h2]

theorem missing_activity_subtree_loads_none_witness :
    load_tcx { activities := none } = .ok none ∧
    load_tcx { activities := some { activity := none } } = .ok none :=
  ⟨missing_activity_subtree_loads_none.1 { activities := none } rfl,
   missing_activity_subtree_loads_none.2 { activities := some { activity := none } }
     { activity := none } rfl rfl⟩

/-- C8: a TCX document containing a reachable track point whose `Time` text
is not parsable (under the Activities/Activity subtree the loader walks)
makes the load raise a parse error; no activity, not even partial, is
returned. -/
theorem bad_timestamp_aborts_load (doc : TCXDocument) (acts : TCXActivities)
    (act : TCXActivity) (lap : TCXLap) (track : TCXTrack) (tpe : TCXTrackpoint)
    (h1 : doc.activities = some acts) (h2 : acts.activity = some act)
    (h3 : lap ∈ act.laps) (h4 : track ∈ lap.tracks) (h5 : tpe ∈ track.trackpoints)
    (h6 : fromIsoformat (pyReplaceZ (pyStr tpe.time)) = none) :
    ∃ e, load_tcx doc = .error e := by
  obtain ⟨e, he⟩ := loadLaps_error_of_bad act.laps lap track tpe h3 h4 h5 h6 0 {}
  refine ⟨e, ?_⟩
  unfold load_tcx
  rw [h1]
  show (match acts.activity with
    | none => Except.ok none
    | some activity => do
        let st ← loadLaps 0 {} activity.laps
        let device_info := loadDeviceInfo activity.creator
        let a ← mkSportActivity none (some "tcx") activity.sport none
          none none none none none device_info st.laps st.track_points
        Except.ok (some a)) = Except.error e
  rw [h2]
  show (do
      let st ← loadLaps 0 {} act.laps
      let device_info := loadDeviceInfo act.creator
      let a ← mkSportActivity none (some "tcx") act.sport none
        none none none none none device_info st.laps st.track_points
      Except.ok (some a)) = Except.error e
  rw [he]
  rfl

theorem bad_timestamp_aborts_load_witness :
    ∃ e, load_tcx docNotADate = .error e :=
  bad_timestamp_aborts_load docNotADate
    { activity := some { laps := [lapNotADate] } }
    { laps := [lapNotADate] } lapNotADate
    { trackpoints := [timeOnlyTp "not-a-date"] } (timeOnlyTp "not-a-date")
    rfl rfl (by decide) (by decide) (by decide) (by decide)

/-- C2 (evidence of the violation): loading a document whose second lap
holds no trackpoints yields a lap with both indices set and
`start_index = 1 > end_index = 0`, violating the claimed invariant
`0 ≤ start_index ≤ end_index < len(track_points)`. -/
theorem lap_index_invariant_violated :
    load_tcx docOnePointThenEmptyLap = .ok (some onePtEmptyActivity) ∧
    ∃ lap ∈ onePtEmptyActivity.laps,
      lap.start_index = some 1 ∧ lap.end_index = some 0 := by
  exact ⟨by decide, by decide⟩

/-- C3 (evidence): the positive half of the claim holds — two consecutive
laps of three points each receive the inclusive ranges [0,2] and [3,5] —
but the zero-point half fails: a lap containing zero track points still
receives `start_index` (and, when any earlier point exists, `end_index`),
instead of having both left unset. -/
theorem lap_ranges_assigned :
    (load_tcx docTwoLapsOfThree = .ok (some twoLapsOfThreeActivity) ∧
     twoLapsOfThreeActivity.laps.map (fun lap => (lap.start_index, lap.end_index)) =
       [(some 0, some 2), (some 3, some 5)]) ∧
    (load_tcx docSingleEmptyLap = .ok (some singleEmptyLapActivity) ∧
     singleEmptyLapActivity.laps.map (fun lap => (lap.start_index, lap.end_index)) =
       [(some 0, none)]) := by
  exact ⟨⟨by decide, by decide⟩, ⟨by decide, by decide⟩⟩

/-- Under the GPS-pair invariant, the latitude list and the longitude list
the bounding box is computed from are the component lists of the
coordinate-bearing pairs. -/
theorem filterMap_lat_lon (l : List TrackPoint)
    (h : ∀ tp ∈ l, tp.latitude.isSome = tp.longitude.isSome) :
    l.filterMap (fun tp => tp.latitude) = (gpsPairs l).map Prod.fst ∧
    l.filterMap (fun tp => tp.longitude) = (gpsPairs l).map Prod.snd := by
  induction l with
  | nil => simp [gpsPairs]
  | cons tp rest ih =>
      have htp := h tp (List.mem_cons_self tp rest)
      obtain ⟨ih1, ih2⟩ := ih fun x hx => h x (List.mem_cons_of_mem _ hx)
      rcases hla : tp.latitude with _ | la <;> rcases hlo : tp.longitude with _ | lo
      · simp [gpsPairs, List.filterMap_cons, hla, hlo, ih1, ih2]
      · rw [hla, hlo] at htp
        simp at htp
      · rw [hla, hlo] at htp
        simp at htp
      · simp [gpsPairs, List.filterMap_cons, hla, hlo, ih1, ih2]

/-- C9: for an activity whose points satisfy the GPS-pair invariant (as all
validly constructed points do), `bounding_box` is the componentwise min/max
of latitude and longitude over the coordinate-bearing points, and is
undefined when no point has coordinates. -/
theorem bounding_box_componentwise (a : SportActivity)
    (h : ∀ tp ∈ a.track_points, tp.latitude.isSome = tp.longitude.isSome) :
    a.bounding_box = specBoundingBox a := by
  obtain ⟨h1, h2⟩ := filterMap_lat_lon a.track_points h
  unfold SportActivity.bounding_box specBoundingBox
  rw [h1, h2]
  cases gpsPairs a.track_points with
  | nil => rfl
  | cons q qs => rfl

theorem bounding_box_componentwise_witness :
    gpsExampleActivity.bounding_box =
      some { min_lat := 10, max_lat := 12, min_lon := 18, max_lon := 20 } := by
  rw [bounding_box_componentwise gpsExampleActivity (by decide)]
  decide

/-- C10: for an activity whose points satisfy the GPS-pair invariant,
`has_gps` is true exactly when `bounding_box` is defined. -/
theorem has_gps_iff_bounding_box (a : SportActivity)
    (h : ∀ tp ∈ a.track_points, tp.latitude.isSome = tp.longitude.isSome) :
    a.has_gps = true ↔ (a.bounding_box).isSome = true := by
  obtain ⟨h1, h2⟩ := filterMap_lat_lon a.track_points h
  have hbb : (a.bounding_box).isSome = true ↔ gpsPairs a.track_points ≠ [] := by
    unfold SportActivity.bounding_box
    rw [h1, h2]
    cases gpsPairs a.track_points with
    | nil => simp
    | cons q qs => simp
  have hhg : a.has_gps = true ↔ gpsPairs a.track_points ≠ [] := by
    rw [SportActivity.has_gps, List.any_eq_true]
    constructor
    · rintro ⟨tp, htp, hp⟩
      simp only [Bool.and_eq_true, Option.isSome_iff_exists] at hp
      obtain ⟨⟨la, hla⟩, lo, hlo⟩ := hp
      intro hnil
      have hmem : (la, lo) ∈ gpsPairs a.track_points := by
        unfold gpsPairs
        rw [List.mem_filterMap]
        exact ⟨tp, htp, by rw [hla, hlo]⟩
      rw [hnil] at hmem
      exact List.not_mem_nil _ hmem
    · intro hne
      cases hgp : gpsPairs a.track_points with
      | nil => exact absurd hgp hne
      | cons q qs =>
          have hq : q ∈ gpsPairs a.track_points := by
            rw [hgp]
            exact List.mem_cons_self _ _
          unfold gpsPairs at hq
          rw [List.mem_filterMap] at hq
          obtain ⟨tp, htp, hf⟩ := hq
          refine ⟨tp, htp, ?_⟩
          rcases h1a : tp.latitude with _ | la <;>
            rcases h2a : tp.longitude with _ | lo <;>
            rw [h1a, h2a] at hf <;> simp at hf ⊢
  rw [hhg, hbb]

theorem has_gps_iff_bounding_box_witness :
    gpsExampleActivity.has_gps = true ↔
      (gpsExampleActivity.bounding_box).isSome = true :=
  has_gps_iff_bounding_box gpsExampleActivity (by decide)

end ActivityToolbox
